import Mathlib

/-!
Verification of the stdio JSON-RPC (MCP) server: a shallow embedding of
`src/server.rs`, `src/handlers.rs`, `src/types.rs`, `src/stdio.rs` and
`src/main.rs`, followed by theorems about the message classification,
dispatch and response-correlation behaviour.

JSON values are modelled by the inductive `Json` below; JSON numbers are
modelled as integers (no claim depends on float formatting).  The generic
JSON parse performed by `serde_json::from_str::<Value>` on each input line
is abstracted: a line enters the loop as `LineInput.invalidJson` (non-empty
line that is not valid JSON), `LineInput.emptyLine` (whitespace-only line,
skipped) or `LineInput.json v` (its parsed value `v`).
-/

/-- A parsed JSON value (mirrors `serde_json::Value`; numbers as `Int`). -/
inductive Json where
  | null
  | bool (b : Bool)
  | num (n : Int)
  | str (s : String)
  | arr (elems : List Json)
  | obj (fields : List (String × Json))
deriving Repr

/-- Key lookup in an object's field list (post-parse maps have distinct keys,
so first-match lookup agrees with `serde_json::Map::get`). -/
def lookupField : List (String × Json) → String → Option Json
  | [], _ => none
  | (k, v) :: rest, key => if k = key then some v else lookupField rest key

/-- `Value::get(key)` : `some` only on objects that contain the key. -/
def Json.get : Json → String → Option Json
  | .obj fields, key => lookupField fields key
  | _, _ => none

/-- `types.rs`: `Implementation { name, version }`. -/
structure Implementation where
  name : String
  version : String
deriving Repr

/-- `types.rs`: `ServerCapabilities { tools, resources, prompts }`,
each an `Option<Value>`. -/
structure ServerCapabilities where
  tools : Option Json
  resources : Option Json
  prompts : Option Json
deriving Repr

/-- `types.rs`: `ClientCapabilities {}` (no fields). -/
structure ClientCapabilities where
deriving Repr

/-- `types.rs`: `InitializeRequestParams` (serde keys are camelCase:
`protocolVersion`, `capabilities`, `clientInfo`). -/
structure InitializeRequestParams where
  protocol_version : String
  capabilities : ClientCapabilities
  client_info : Implementation
deriving Repr

/-- `types.rs`: `InitializeResult` (camelCase keys; `instructions` skipped
when `None`). -/
structure InitializeResult where
  protocol_version : String
  capabilities : ServerCapabilities
  server_info : Implementation
  instructions : Option String
deriving Repr

/-- `types.rs`: `GenericRequest { jsonrpc, id, method, params }`. -/
structure GenericRequest where
  jsonrpc : String
  id : Json
  method : String
  params : Option Json
deriving Repr

/-- `types.rs`: `GenericNotification { jsonrpc, method, params }`. -/
structure GenericNotification where
  jsonrpc : String
  method : String
  params : Option Json
deriving Repr

/-- `types.rs`: `ErrorData { code, message }`. -/
structure ErrorData where
  code : Int
  message : String
deriving Repr

/-- `types.rs`: `GenericErrorResponse { jsonrpc, id, error }`. -/
structure GenericErrorResponse where
  jsonrpc : String
  id : Json
  error : ErrorData
deriving Repr

/-- `types.rs`: `Tool { name, description, input_schema }` (serde key
`inputSchema`; `description` skipped when `None`). -/
structure Tool where
  name : String
  description : Option String
  input_schema : Json
deriving Repr

/-- `types.rs`: `Resource { uri, name, description }`. -/
structure Resource where
  uri : String
  name : String
  description : Option String
deriving Repr

/-- `types.rs`: `PromptArgument { name, description, required }`. -/
structure PromptArgument where
  name : String
  description : Option String
  required : Bool
deriving Repr

/-- `types.rs`: `Prompt { name, description, arguments }`. -/
structure Prompt where
  name : String
  description : Option String
  arguments : Option (List PromptArgument)
deriving Repr

/-- `types.rs`: `ListToolsResult { tools }`. -/
structure ListToolsResult where
  tools : List Tool
deriving Repr

/-- `types.rs`: `ListResourcesResult { resources }`. -/
structure ListResourcesResult where
  resources : List Resource
deriving Repr

/-- `types.rs`: `ListPromptsResult { prompts }`. -/
structure ListPromptsResult where
  prompts : List Prompt
deriving Repr

/-- `types.rs`: `CallToolRequestParams { name, arguments }` (`arguments`
is a required `Value`). -/
structure CallToolRequestParams where
  name : String
  arguments : Json
deriving Repr

/-- `types.rs`: `ContentPart { type_, text }` (serde key `type`; `text`
skipped when `None`). -/
structure ContentPart where
  type_ : String
  text : Option String
deriving Repr

/-- `types.rs`: `CallToolResult { content, is_error }` (serde key
`isError`, skipped when `None`). -/
structure CallToolResult where
  content : List ContentPart
  is_error : Option Bool
deriving Repr

/-- `types.rs`: `InitializedNotificationParams {}` (no fields). -/
structure InitializedNotificationParams where
deriving Repr

instance : Inhabited InitializedNotificationParams := ⟨{}⟩

/-- serde decode of `GenericRequest` from a `Value`: requires `jsonrpc`
(a string), `id` (any value), `method` (a string); `params` is
`Option<Value>` (absent or JSON `null` both decode to `none`); unknown
fields are ignored. -/
def decodeGenericRequest (v : Json) : Option GenericRequest :=
  match v.get "jsonrpc" with
  | some (Json.str j) =>
    match v.get "id" with
    | some i =>
      match v.get "method" with
      | some (Json.str m) =>
        let p : Option Json :=
          match v.get "params" with
          | some Json.null => none
          | some pv => some pv
          | none => none
        some { jsonrpc := j, id := i, method := m, params := p }
      | _ => none
    | none => none
  | _ => none

/-- serde decode of `GenericNotification` from a `Value`. -/
def decodeGenericNotification (v : Json) : Option GenericNotification :=
  match v.get "jsonrpc" with
  | some (Json.str j) =>
    match v.get "method" with
    | some (Json.str m) =>
      let p : Option Json :=
        match v.get "params" with
        | some Json.null => none
        | some pv => some pv
        | none => none
      some { jsonrpc := j, method := m, params := p }
    | _ => none
  | _ => none

/-- serde decode of the field-less `ClientCapabilities` struct: accepts any
JSON object (unknown fields ignored). -/
def decodeClientCapabilities (v : Json) : Option ClientCapabilities :=
  match v with
  | Json.obj _ => some {}
  | _ => none

/-- serde decode of `Implementation` from a `Value`. -/
def decodeImplementation (v : Json) : Option Implementation :=
  match v.get "name", v.get "version" with
  | some (Json.str n), some (Json.str ver) => some { name := n, version := ver }
  | _, _ => none

/-- serde decode of `InitializeRequestParams` from a `Value`. -/
def decodeInitializeRequestParams (v : Json) : Option InitializeRequestParams :=
  match v.get "protocolVersion" with
  | some (Json.str pv) =>
    match v.get "capabilities" with
    | some c =>
      match decodeClientCapabilities c with
      | some caps =>
        match v.get "clientInfo" with
        | some ci =>
          match decodeImplementation ci with
          | some info => some { protocol_version := pv, capabilities := caps, client_info := info }
          | none => none
        | none => none
      | none => none
    | none => none
  | _ => none

/-- serde decode of `CallToolRequestParams` from a `Value`: `name` must be
a string, `arguments` must be present (any value). -/
def decodeCallToolRequestParams (v : Json) : Option CallToolRequestParams :=
  match v.get "name" with
  | some (Json.str n) =>
    match v.get "arguments" with
    | some a => some { name := n, arguments := a }
    | none => none
  | _ => none

/-- serde decode of the field-less `InitializedNotificationParams`. -/
def decodeInitializedNotificationParams (v : Json) : Option InitializedNotificationParams :=
  match v with
  | Json.obj _ => some {}
  | _ => none

mutual

/-- Compact rendering of a JSON value, as `serde_json::Value`'s `Display`
prints it (escaping of special characters inside strings is not modelled;
no claim depends on the rendered text). -/
def Json.render : Json → String
  | .null => "null"
  | .bool true => "true"
  | .bool false => "false"
  | .num n => toString n
  | .str s => "\"" ++ s ++ "\""
  | .arr elems => "[" ++ Json.renderList elems ++ "]"
  | .obj fields => "\x7b" ++ Json.renderFields fields ++ "\x7d"

/-- Comma-separated rendering of array elements. -/
def Json.renderList : List Json → String
  | [] => ""
  | [x] => Json.render x
  | x :: xs => Json.render x ++ "," ++ Json.renderList xs

/-- Comma-separated rendering of object members. -/
def Json.renderFields : List (String × Json) → String
  | [] => ""
  | [(k, v)] => "\"" ++ k ++ "\":" ++ Json.render v
  | (k, v) :: xs => "\"" ++ k ++ "\":" ++ Json.render v ++ "," ++ Json.renderFields xs

end

/-- serde serialization of `Option<Value>` without a skip attribute:
`None` becomes JSON `null`. -/
def optValueToJson : Option Json → Json
  | none => Json.null
  | some v => v

/-- serde serialization of `Implementation`. -/
def Implementation.toJson (i : Implementation) : Json :=
  Json.obj [("name", Json.str i.name), ("version", Json.str i.version)]

/-- serde serialization of `ServerCapabilities` (no skip attributes, so
`None` fields serialize as `null`). -/
def ServerCapabilities.toJson (c : ServerCapabilities) : Json :=
  Json.obj [("tools", optValueToJson c.tools),
            ("resources", optValueToJson c.resources),
            ("prompts", optValueToJson c.prompts)]

/-- serde serialization of `InitializeResult` (camelCase keys;
`instructions` omitted when `None`). -/
def InitializeResult.toJson (r : InitializeResult) : Json :=
  Json.obj ([("protocolVersion", Json.str r.protocol_version),
             ("capabilities", r.capabilities.toJson),
             ("serverInfo", r.server_info.toJson)] ++
            (match r.instructions with
             | none => []
             | some s => [("instructions", Json.str s)]))

/-- serde serialization of `Tool` (`description` omitted when `None`). -/
def Tool.toJson (t : Tool) : Json :=
  Json.obj ([("name", Json.str t.name)] ++
            (match t.description with
             | none => []
             | some d => [("description", Json.str d)]) ++
            [("inputSchema", t.input_schema)])

/-- serde serialization of `Resource`. -/
def Resource.toJson (r : Resource) : Json :=
  Json.obj ([("uri", Json.str r.uri), ("name", Json.str r.name)] ++
            (match r.description with
             | none => []
             | some d => [("description", Json.str d)]))

/-- serde serialization of `PromptArgument`. -/
def PromptArgument.toJson (a : PromptArgument) : Json :=
  Json.obj ([("name", Json.str a.name)] ++
            (match a.description with
             | none => []
             | some d => [("description", Json.str d)]) ++
            [("required", Json.bool a.required)])

/-- serde serialization of `Prompt`. -/
def Prompt.toJson (p : Prompt) : Json :=
  Json.obj ([("name", Json.str p.name)] ++
            (match p.description with
             | none => []
             | some d => [("description", Json.str d)]) ++
            (match p.arguments with
             | none => []
             | some args => [("arguments", Json.arr (args.map PromptArgument.toJson))]))

/-- serde serialization of `ListToolsResult`. -/
def ListToolsResult.toJson (r : ListToolsResult) : Json :=
  Json.obj [("tools", Json.arr (r.tools.map Tool.toJson))]

/-- serde serialization of `ListResourcesResult`. -/
def ListResourcesResult.toJson (r : ListResourcesResult) : Json :=
  Json.obj [("resources", Json.arr (r.resources.map Resource.toJson))]

/-- serde serialization of `ListPromptsResult`. -/
def ListPromptsResult.toJson (r : ListPromptsResult) : Json :=
  Json.obj [("prompts", Json.arr (r.prompts.map Prompt.toJson))]

/-- serde serialization of `ContentPart` (`type_` renames to `type`;
`text` omitted when `None`). -/
def ContentPart.toJson (c : ContentPart) : Json :=
  Json.obj ([("type", Json.str c.type_)] ++
            (match c.text with
             | none => []
             | some t => [("text", Json.str t)]))

/-- serde serialization of `CallToolResult` (`is_error` renames to
`isError`, omitted when `None`). -/
def CallToolResult.toJson (r : CallToolResult) : Json :=
  Json.obj ([("content", Json.arr (r.content.map ContentPart.toJson))] ++
            (match r.is_error with
             | none => []
             | some b => [("isError", Json.bool b)]))

/-- Modelled from the spec: `src/constants.rs` (declared in `lib.rs` and
used by `handlers.rs` as `crate::constants::SUPPORTED_PROTOCOL_VERSION`)
is absent from the sources.  The spec says only that the protocol version
constant is "a fixed string"; the concrete value chosen here is a
placeholder and no theorem depends on it. -/
def SUPPORTED_PROTOCOL_VERSION : String := "2024-11-05"

/-- Placeholder for the detail text of a serde decode failure
(`e.to_string()` in `server.rs`): the exact message is produced by the
serde library and is not modelled.  No claim inspects this text. -/
def serdeDecodeDetail : String := "serde decode failure"

/-- `server.rs`: the `ServerState` struct. -/
structure ServerState where
  server_info : Implementation
  server_capabilities : ServerCapabilities
deriving Repr

/-- `server.rs` `run`: the state constructed at startup. -/
def initialServerState : ServerState :=
  { server_info := { name := "rust-mcp-stdio-refactored", version := "0.1.1" },
    server_capabilities :=
      { tools := some (Json.obj []),
        resources := some (Json.obj []),
        prompts := some (Json.obj []) } }

/-- `handlers.rs` `create_error_response`. -/
def create_error_response (id : Json) (code : Int) (message : String) : GenericErrorResponse :=
  { jsonrpc := "2.0", id := id, error := { code := code, message := message } }

/-- `handlers.rs` `method_not_found_error` (code `-32601`). -/
def method_not_found_error (id : Json) (method_name : String) : GenericErrorResponse :=
  create_error_response id (-32601) ("Method not found: " ++ method_name)

/-- `handlers.rs` `invalid_params_error` (code `-32602`). -/
def invalid_params_error (id : Json) (method_name : String) (details : String) : GenericErrorResponse :=
  create_error_response id (-32602) ("Invalid params for " ++ method_name ++ ": " ++ details)

/-- `handlers.rs` `parse_error` (code `-32700`; `id` defaults to `null`). -/
def parse_error (id : Option Json) (details : String) : GenericErrorResponse :=
  create_error_response (id.getD Json.null) (-32700) ("Parse error: " ++ details)

/-- `handlers.rs` `handle_initialize`: a protocol-version mismatch is only
logged; the result always advertises the server's own version. -/
def handle_initialize (params : InitializeRequestParams)
    (server_capabilities : ServerCapabilities) (server_info : Implementation) :
    Except String InitializeResult :=
  let _ := params.protocol_version ≠ SUPPORTED_PROTOCOL_VERSION
  Except.ok
    { protocol_version := SUPPORTED_PROTOCOL_VERSION,
      capabilities := server_capabilities,
      server_info := server_info,
      instructions := none }

/-- `handlers.rs` `handle_initialized`: logs and returns `Ok(())`. -/
def handle_initialized (_params : InitializedNotificationParams) : Except String Unit :=
  Except.ok ()

/-- `handlers.rs` `handle_list_tools`: always `Ok` with the dummy tool. -/
def handle_list_tools : Except String ListToolsResult :=
  let dummy_tool : Tool :=
    { name := "dummy_tool_from_rust",
      description := some "A simple test tool.",
      input_schema := Json.obj [("type", Json.str "object"), ("properties", Json.obj [])] }
  Except.ok { tools := [dummy_tool] }

/-- `handlers.rs` `handle_list_resources`: always `Ok` with the dummy
resource. -/
def handle_list_resources : Except String ListResourcesResult :=
  let dummy_resource : Resource :=
    { uri := "mcp://dummy/resource/1",
      name := "Dummy Resource",
      description := some "A test resource from Rust" }
  Except.ok { resources := [dummy_resource] }

/-- `handlers.rs` `handle_list_prompts`: always `Ok` with the dummy
prompt. -/
def handle_list_prompts : Except String ListPromptsResult :=
  let dummy_prompt : Prompt :=
    { name := "dummy_prompt",
      description := some "A test prompt from Rust",
      arguments := none }
  Except.ok { prompts := [dummy_prompt] }

/-- `handlers.rs` `handle_call_tool`: the known dummy tool succeeds; an
unknown tool still returns `Ok`, with the error carried inside the result
(`is_error = some true`). -/
def handle_call_tool (params : CallToolRequestParams) : Except String CallToolResult :=
  if params.name = "dummy_tool_from_rust" then
    Except.ok
      { content :=
          [{ type_ := "text",
             text := some ("dummy_tool_from_rust executed successfully by Rust! Received args: "
                           ++ params.arguments.render) }],
        is_error := none }
  else
    Except.ok
      { content :=
          [{ type_ := "text",
             text := some ("Error: Tool \x27" ++ params.name
                           ++ "\x27 not implemented by this server.") }],
        is_error := some true }

/-- One line written to stdout by `stdio::write_message_newline`: either a
`GenericResponse` (`jsonrpc`, `id`, `result`) or a `GenericErrorResponse`
flattened to its `id`, `error.code` and `error.message` (`jsonrpc` is the
constant `"2.0"` in both). -/
inductive OutMessage where
  | success (id : Json) (result : Json)
  | error (id : Json) (code : Int) (message : String)
deriving Repr

/-- The `id` carried by an outbound message. -/
def OutMessage.msgId : OutMessage → Json
  | .success i _ => i
  | .error i _ _ => i

/-- The JSON-RPC error code of an outbound message (`none` for a success
response). -/
def OutMessage.code : OutMessage → Option Int
  | .success _ _ => none
  | .error _ c _ => some c

/-- Lift a `GenericErrorResponse` to an outbound message. -/
def errOut (e : GenericErrorResponse) : OutMessage :=
  OutMessage.error e.id e.error.code e.error.message

/-- `server.rs` `handle_request`: dispatch on the method name, then write
exactly one message — the success response or the error response.  The
write itself (and its possible I/O failure) is handled by the loop. -/
def handle_request (request : GenericRequest) (server_state : ServerState) : OutMessage :=
  let response_result : Except GenericErrorResponse Json :=
    match request.method with
    | "initialize" =>
      match request.params with
      | some params_value =>
        match decodeInitializeRequestParams params_value with
        | some params =>
          match handle_initialize params server_state.server_capabilities server_state.server_info with
          | Except.ok result => Except.ok result.toJson
          | Except.error e => Except.error (invalid_params_error request.id "initialize" e)
        | none => Except.error (invalid_params_error request.id "initialize" serdeDecodeDetail)
      | none => Except.error (invalid_params_error request.id "initialize" "missing params field")
    | "tools/list" =>
      match handle_list_tools with
      | Except.ok result => Except.ok result.toJson
      | Except.error e =>
        Except.error (create_error_response request.id (-32603) ("Internal error during tools/list: " ++ e))
    | "resources/list" =>
      match handle_list_resources with
      | Except.ok result => Except.ok result.toJson
      | Except.error e =>
        Except.error (create_error_response request.id (-32603) ("Internal error during resources/list: " ++ e))
    | "prompts/list" =>
      match handle_list_prompts with
      | Except.ok result => Except.ok result.toJson
      | Except.error e =>
        Except.error (create_error_response request.id (-32603) ("Internal error during prompts/list: " ++ e))
    | "tools/call" =>
      match request.params with
      | some params_value =>
        match decodeCallToolRequestParams params_value with
        | some params =>
          match handle_call_tool params with
          | Except.ok result => Except.ok result.toJson
          | Except.error e =>
            Except.error (create_error_response request.id (-32603) ("Internal error during tools/call: " ++ e))
        | none => Except.error (invalid_params_error request.id "tools/call" serdeDecodeDetail)
      | none => Except.error (invalid_params_error request.id "tools/call" "missing params field")
    | _ => Except.error (method_not_found_error request.id request.method)
  match response_result with
  | Except.ok result_value => OutMessage.success request.id result_value
  | Except.error error_response => errOut error_response

/-- `server.rs` `handle_notification`: every arm only logs (or calls
`handle_initialized`, which returns `Ok(())`); the `stdout` parameter is
never written to, so the list of writes is empty on every path. -/
def handle_notification (notification : GenericNotification) : List OutMessage :=
  match notification.method with
  | "initialized" =>
    match notification.params with
    | some params_value =>
      match decodeInitializedNotificationParams params_value with
      | some params =>
        match handle_initialized params with
        | Except.ok _ => []
        | Except.error _ => []
      | none => []
    | none =>
      match handle_initialized default with
      | Except.ok _ => []
      | Except.error _ => []
  | "$/cancelRequest" => []
  | _ => []

/-- One iteration's input: the line was whitespace-only (skipped), failed
the generic JSON parse, or parsed to a value. -/
inductive LineInput where
  | emptyLine
  | invalidJson
  | json (v : Json)
deriving Repr

/-- What the loop body does with one line: nothing, a write of a
parse-error response (`run` breaks with `Ok` if that write fails), the
single write performed inside `handle_request` (`run` propagates `Err` if
it fails), or the writes of `handle_notification` (always none). -/
inductive LineAction where
  | skip
  | writeParseErr (m : OutMessage)
  | writeResponse (m : OutMessage)
  | notif (ms : List OutMessage)
deriving Repr

/-- The body of the `while let` loop in `server.rs` `run`, for one line:
classify (presence of `id` first, then `method`), decode, dispatch. -/
def processLine (state : ServerState) : LineInput → LineAction
  | LineInput.emptyLine => LineAction.skip
  | LineInput.invalidJson =>
    LineAction.writeParseErr (errOut (parse_error none "Invalid JSON received"))
  | LineInput.json v =>
    match v.get "id" with
    | some _ =>
      match decodeGenericRequest v with
      | some request => LineAction.writeResponse (handle_request request state)
      | none =>
        let id := (v.get "id").getD Json.null
        LineAction.writeParseErr (errOut (parse_error (some id) serdeDecodeDetail))
    | none =>
      match v.get "method" with
      | some _ =>
        match decodeGenericNotification v with
        | some notification => LineAction.notif (handle_notification notification)
        | none => LineAction.skip
      | none => LineAction.skip

/-- The messages a single line causes the server to write when no write
fails. -/
def lineOutputs (state : ServerState) (l : LineInput) : List OutMessage :=
  match processLine state l with
  | LineAction.skip => []
  | LineAction.writeParseErr m => [m]
  | LineAction.writeResponse m => [m]
  | LineAction.notif ms => ms

/-- One event of the framed stdin reader: a decoded line, or a read error
(`Err(e)` from the `LinesCodec`). -/
inductive ReadEvent where
  | line (l : LineInput)
  | failure
deriving Repr

/-- How `run` terminated: end of stream (`Ok`), read error (`break`, then
`Ok`), failed write of a parse-error response (`break`, then `Ok`), or
failed write inside `handle_request` (propagated `Err`). -/
inductive LoopResult where
  | finished
  | readErr
  | parseWriteErr
  | requestWriteErr
deriving Repr, DecidableEq

/-- `server.rs` `run`, driven by a finite prefix of read events.  `wf n`
tells whether the `n`-th write attempt fails; `w` counts writes made so
far.  Returns the lines written and how the loop ended. -/
def serverLoop (state : ServerState) (wf : Nat → Bool) :
    List ReadEvent → Nat → List OutMessage × LoopResult
  | [], _ => ([], LoopResult.finished)
  | ReadEvent.failure :: _, _ => ([], LoopResult.readErr)
  | ReadEvent.line l :: rest, w =>
    match processLine state l with
    | LineAction.skip => serverLoop state wf rest w
    | LineAction.notif ms =>
      let (outs, r) := serverLoop state wf rest (w + ms.length)
      (ms ++ outs, r)
    | LineAction.writeParseErr m =>
      if wf w then ([], LoopResult.parseWriteErr)
      else
        let (outs, r) := serverLoop state wf rest (w + 1)
        (m :: outs, r)
    | LineAction.writeResponse m =>
      if wf w then ([], LoopResult.requestWriteErr)
      else
        let (outs, r) := serverLoop state wf rest (w + 1)
        (m :: outs, r)

/-- `main.rs`: the process exits with status 1 exactly when `run` returns
`Err` — which happens only for a write failure inside `handle_request`;
a read error or a failed parse-error write makes `run` return `Ok` (the
loop merely `break`s), so the process exits 0. -/
def processExitCode (r : LoopResult) : Nat :=
  match r with
  | LoopResult.requestWriteErr => 1
  | _ => 0

/-! ### Helper lemmas -/

/-- Every arm of `handle_notification` performs zero writes. -/
theorem handle_notification_eq_nil (n : GenericNotification) : handle_notification n = [] := by
  unfold handle_notification
  repeat' split
  all_goals rfl

/-- A successful `GenericRequest` decode recovers exactly the line's `id`
field. -/
theorem decodeGenericRequest_id {v : Json} {r : GenericRequest}
    (h : decodeGenericRequest v = some r) : v.get "id" = some r.id := by
  unfold decodeGenericRequest at h
  repeat' split at h
  all_goals cases h
  all_goals assumption

/-- A successful `GenericRequest` decode requires the `method` field to be
the string `r.method`. -/
theorem decodeGenericRequest_method {v : Json} {r : GenericRequest}
    (h : decodeGenericRequest v = some r) : v.get "method" = some (Json.str r.method) := by
  unfold decodeGenericRequest at h
  repeat' split at h
  all_goals cases h
  all_goals assumption

/-- The one message `handle_request` writes always carries the request's
own `id`. -/
theorem handle_request_msgId (r : GenericRequest) (s : ServerState) :
    (handle_request r s).msgId = r.id := by
  unfold handle_request
  repeat' split
  all_goals simp_all [errOut, OutMessage.msgId, invalid_params_error,
    method_not_found_error, create_error_response, handle_initialize,
    handle_list_tools, handle_list_resources, handle_list_prompts, handle_call_tool]

/-- `handle_call_tool` never returns `Err`: both branches end in `Ok`. -/
theorem handle_call_tool_ne_error (p : CallToolRequestParams) (e : String) :
    handle_call_tool p ≠ Except.error e := by
  unfold handle_call_tool
  split <;> simp

/-- Every message written for a parsed line carries the line's own `id`
field: responses are correlated to the recovered `id`. -/
theorem mem_lineOutputs_id {s : ServerState} {v : Json} {m : OutMessage}
    (h : m ∈ lineOutputs s (LineInput.json v)) :
    ∃ i, v.get "id" = some i ∧ m.msgId = i := by
  cases hid : v.get "id" with
  | none =>
    cases hm : v.get "method" with
    | none => simp [lineOutputs, processLine, hid, hm] at h
    | some mv =>
      cases hn : decodeGenericNotification v with
      | none => simp [lineOutputs, processLine, hid, hm, hn] at h
      | some n => simp [lineOutputs, processLine, hid, hm, hn, handle_notification_eq_nil] at h
  | some i =>
    cases hd : decodeGenericRequest v with
    | none =>
      simp only [lineOutputs, processLine, hid, hd] at h
      rw [List.mem_singleton] at h
      subst h
      exact ⟨i, rfl, by simp [errOut, parse_error, create_error_response, OutMessage.msgId]⟩
    | some req =>
      simp only [lineOutputs, processLine, hid, hd] at h
      rw [List.mem_singleton] at h
      subst h
      have h2 := decodeGenericRequest_id hd
      rw [hid] at h2
      exact ⟨req.id, h2, handle_request_msgId _ _⟩

/-- No branch of the dispatcher can produce error code `-32603`: the
handlers it would need to fail are total. -/
theorem handle_request_code_ne (r : GenericRequest) (s : ServerState) :
    (handle_request r s).code ≠ some (-32603) := by
  unfold handle_request
  repeat' split
  all_goals
    simp_all [errOut, OutMessage.code, invalid_params_error, method_not_found_error,
      create_error_response, handle_initialize, handle_list_tools,
      handle_list_resources, handle_list_prompts]
  all_goals
    (rename_i heq
     exact absurd heq (handle_call_tool_ne_error _ _))

/-! ### Claims -/

/-- C1: a line that classifies as a Request (valid JSON with an `id` key
that decodes into the `GenericRequest` shape) makes the server write
exactly one message — success or error, never zero, never two — and a
line that classifies as a Notification (`method` present, no `id`) makes
it write none, even when the notification's decode or handler fails. -/
theorem request_one_response_notification_none (v : Json) :
    ((v.get "id").isSome = true → ∀ r : GenericRequest, decodeGenericRequest v = some r →
      (lineOutputs initialServerState (LineInput.json v)).length = 1) ∧
    (v.get "id" = none → (v.get "method").isSome = true →
      lineOutputs initialServerState (LineInput.json v) = []) := by
  constructor
  · intro _ r hd
    have hid := decodeGenericRequest_id hd
    simp [lineOutputs, processLine, hid, hd]
  · intro hid hm
    obtain ⟨mv, hmv⟩ := Option.isSome_iff_exists.mp hm
    cases hn : decodeGenericNotification v with
    | none => simp [lineOutputs, processLine, hid, hmv, hn]
    | some n => simp [lineOutputs, processLine, hid, hmv, hn, handle_notification_eq_nil]

/-- A concrete `tools/list` request line. -/
def c1RequestLine : Json :=
  Json.obj [("jsonrpc", Json.str "2.0"), ("id", Json.num 1), ("method", Json.str "tools/list")]

/-- A concrete `initialized` notification line whose params decode would
even fail (params is a number): still no output. -/
def c1NotificationLine : Json :=
  Json.obj [("jsonrpc", Json.str "2.0"), ("method", Json.str "initialized"),
            ("params", Json.num 3)]

/-- C1 witness: the theorem applied to a concrete request and a concrete
notification. -/
theorem request_one_response_notification_none_witness :
    (lineOutputs initialServerState (LineInput.json c1RequestLine)).length = 1 ∧
    lineOutputs initialServerState (LineInput.json c1NotificationLine) = [] :=
  ⟨(request_one_response_notification_none c1RequestLine).1 (by rfl) _ (by rfl),
   (request_one_response_notification_none c1NotificationLine).2 (by rfl) (by rfl)⟩

/-- A line with an `id` key that fails the `GenericRequest` decode
(`method` missing). -/
def c2Line : Json := Json.obj [("id", Json.num 7)]

/-- C2 counterexample: the claim says a decode failure with a recoverable
`id` is answered with code `-32602`, "not a parse error (code -32700)".
On this input the code answers with `handlers::parse_error`, code
`-32700`, and no `-32602` message is written. -/
theorem decode_failure_answered_with_parse_error_counterexample :
    decodeGenericRequest c2Line = none ∧
    lineOutputs initialServerState (LineInput.json c2Line) =
      [OutMessage.error (Json.num 7) (-32700) ("Parse error: " ++ serdeDecodeDetail)] ∧
    ∀ m ∈ lineOutputs initialServerState (LineInput.json c2Line),
      m.code ≠ some (-32602) := by
  refine ⟨rfl, rfl, ?_⟩
  intro m hm
  rw [show lineOutputs initialServerState (LineInput.json c2Line) =
      [OutMessage.error (Json.num 7) (-32700) ("Parse error: " ++ serdeDecodeDetail)] from rfl] at hm
  rw [List.mem_singleton] at hm
  subst hm
  decide

/-- C2 (amended): a line that parses as generic JSON and contains an `id`
key but fails the structured `GenericRequest` decode is answered with
exactly one *parse-error* response — code `-32700`, not `-32602` —
correlated to the recovered `id`. -/
theorem decode_failure_answered_with_parse_error (v : Json) (i : Json)
    (hid : v.get "id" = some i) (hdec : decodeGenericRequest v = none) :
    lineOutputs initialServerState (LineInput.json v) =
      [OutMessage.error i (-32700) ("Parse error: " ++ serdeDecodeDetail)] := by
  simp [lineOutputs, processLine, hid, hdec, errOut, parse_error, create_error_response]

/-- C2 witness: the amended theorem applied to the concrete line
`{"id": 7}`. -/
theorem decode_failure_answered_with_parse_error_witness :
    c2Line.get "id" = some (Json.num 7) ∧
    decodeGenericRequest c2Line = none ∧
    lineOutputs initialServerState (LineInput.json c2Line) =
      [OutMessage.error (Json.num 7) (-32700) ("Parse error: " ++ serdeDecodeDetail)] :=
  ⟨rfl, rfl, decode_failure_answered_with_parse_error c2Line (Json.num 7) rfl rfl⟩

/-- C3 counterexample: a read failure on stdin terminates the loop, but
`run` returns `Ok(())` (the loop merely `break`s), so `main` exits with
status 0 — not the non-zero status the claim requires for every
transport I/O failure. -/
theorem transport_failure_nonzero_exit_counterexample :
    serverLoop initialServerState (fun _ => false) [ReadEvent.failure] 0 =
      ([], LoopResult.readErr) ∧
    processExitCode LoopResult.readErr = 0 :=
  ⟨rfl, rfl⟩

/-- C3 (amended): every transport I/O failure terminates the server loop
at once — the remaining input events are never processed — but the
process exit status is non-zero only when the failed write happened
inside `handle_request`; a stdin read failure, or a failed write of a
parse-error response, ends the loop with exit status 0. -/
theorem transport_failure_terminates_loop (state : ServerState) (wf : Nat → Bool)
    (rest : List ReadEvent) (w : Nat) (l : LineInput) (m : OutMessage) :
    (serverLoop state wf (ReadEvent.failure :: rest) w = ([], LoopResult.readErr) ∧
      processExitCode LoopResult.readErr = 0) ∧
    (processLine state l = LineAction.writeResponse m → wf w = true →
      serverLoop state wf (ReadEvent.line l :: rest) w = ([], LoopResult.requestWriteErr) ∧
      processExitCode LoopResult.requestWriteErr = 1) ∧
    (processLine state l = LineAction.writeParseErr m → wf w = true →
      serverLoop state wf (ReadEvent.line l :: rest) w = ([], LoopResult.parseWriteErr) ∧
      processExitCode LoopResult.parseWriteErr = 0) := by
  refine ⟨⟨rfl, rfl⟩, ?_, ?_⟩
  · intro hp hw
    exact ⟨by simp [serverLoop, hp, hw], rfl⟩
  · intro hp hw
    exact ⟨by simp [serverLoop, hp, hw], rfl⟩

/-- A concrete unknown-method request line (dispatch writes one error). -/
def c3RequestLine : Json :=
  Json.obj [("jsonrpc", Json.str "2.0"), ("id", Json.num 5), ("method", Json.str "frobnicate")]

/-- C3 witness: the amended theorem applied with an always-failing write
oracle, once to a request line and once to an unparseable line. -/
theorem transport_failure_terminates_loop_witness :
    (serverLoop initialServerState (fun _ => true)
        [ReadEvent.line (LineInput.json c3RequestLine)] 0 =
      ([], LoopResult.requestWriteErr) ∧
      processExitCode LoopResult.requestWriteErr = 1) ∧
    (serverLoop initialServerState (fun _ => true) [ReadEvent.line LineInput.invalidJson] 0 =
      ([], LoopResult.parseWriteErr) ∧
      processExitCode LoopResult.parseWriteErr = 0) :=
  ⟨(transport_failure_terminates_loop initialServerState (fun _ => true) [] 0
      (LineInput.json c3RequestLine)
      (OutMessage.error (Json.num 5) (-32601) "Method not found: frobnicate")).2.1 rfl rfl,
   (transport_failure_terminates_loop initialServerState (fun _ => true) [] 0
      LineInput.invalidJson
      (OutMessage.error Json.null (-32700) "Parse error: Invalid JSON received")).2.2 rfl rfl⟩

/-- With an unknown method (none of the five dispatch literals),
`handle_request` answers with `method_not_found_error`. -/
theorem handle_request_unknown_method (r : GenericRequest) (s : ServerState)
    (h1 : r.method ≠ "initialize") (h2 : r.method ≠ "tools/list")
    (h3 : r.method ≠ "resources/list") (h4 : r.method ≠ "prompts/list")
    (h5 : r.method ≠ "tools/call") :
    handle_request r s = errOut (method_not_found_error r.id r.method) := by
  unfold handle_request
  repeat' split
  all_goals simp_all

/-- C4: a `tools/call` Request whose params decode but whose tool name is
unknown gets a *success* response (not a JSON-RPC error) whose result
carries `isError = true` and whose content text is
`Error: Tool '<name>' not implemented by this server.`. -/
theorem unknown_tool_call_success_with_isError (v : Json) (r : GenericRequest)
    (p : Json) (params : CallToolRequestParams)
    (hdec : decodeGenericRequest v = some r)
    (hm : r.method = "tools/call")
    (hp : r.params = some p)
    (hcd : decodeCallToolRequestParams p = some params)
    (hname : params.name ≠ "dummy_tool_from_rust") :
    lineOutputs initialServerState (LineInput.json v) =
      [OutMessage.success r.id
        (Json.obj
          [("content", Json.arr
             [Json.obj [("type", Json.str "text"),
                        ("text", Json.str ("Error: Tool \x27" ++ params.name
                                           ++ "\x27 not implemented by this server."))]]),
           ("isError", Json.bool true)])] := by
  have hid := decodeGenericRequest_id hdec
  simp [lineOutputs, processLine, hid, hdec, handle_request, hm, hp, hcd,
        handle_call_tool, hname, CallToolResult.toJson, ContentPart.toJson]

/-- The spec's Scenario B line:
`{"jsonrpc":"2.0","id":2,"method":"tools/call","params":{"name":"unknown_tool","arguments":{}}}`. -/
def c4Line : Json :=
  Json.obj [("jsonrpc", Json.str "2.0"), ("id", Json.num 2),
            ("method", Json.str "tools/call"),
            ("params", Json.obj [("name", Json.str "unknown_tool"),
                                 ("arguments", Json.obj [])])]

/-- C4 witness: the theorem applied to the Scenario B line. -/
theorem unknown_tool_call_success_with_isError_witness :
    lineOutputs initialServerState (LineInput.json c4Line) =
      [OutMessage.success (Json.num 2)
        (Json.obj
          [("content", Json.arr
             [Json.obj [("type", Json.str "text"),
                        ("text", Json.str "Error: Tool \x27unknown_tool\x27 not implemented by this server.")]]),
           ("isError", Json.bool true)])] :=
  unknown_tool_call_success_with_isError c4Line
    { jsonrpc := "2.0", id := Json.num 2, method := "tools/call",
      params := some (Json.obj [("name", Json.str "unknown_tool"),
                                ("arguments", Json.obj [])]) }
    (Json.obj [("name", Json.str "unknown_tool"), ("arguments", Json.obj [])])
    { name := "unknown_tool", arguments := Json.obj [] }
    rfl rfl rfl rfl (by decide)

/-- C5: a classified Request whose method is none of `initialize`,
`tools/list`, `resources/list`, `prompts/list`, `tools/call` gets exactly
one error response, code `-32601`, id equal to the request's id, and a
message that contains the method name. -/
theorem unknown_method_error_32601 (v : Json) (r : GenericRequest)
    (hdec : decodeGenericRequest v = some r)
    (h1 : r.method ≠ "initialize") (h2 : r.method ≠ "tools/list")
    (h3 : r.method ≠ "resources/list") (h4 : r.method ≠ "prompts/list")
    (h5 : r.method ≠ "tools/call") :
    lineOutputs initialServerState (LineInput.json v) =
      [OutMessage.error r.id (-32601) ("Method not found: " ++ r.method)] ∧
    ∃ pre post, "Method not found: " ++ r.method = pre ++ r.method ++ post := by
  refine ⟨?_, "Method not found: ", "", by simp⟩
  have hid := decodeGenericRequest_id hdec
  simp [lineOutputs, processLine, hid, hdec,
        handle_request_unknown_method r initialServerState h1 h2 h3 h4 h5,
        errOut, method_not_found_error, create_error_response]

/-- C5 witness: the theorem applied to the spec's Scenario E line
`{"jsonrpc":"2.0","id":5,"method":"frobnicate"}`. -/
theorem unknown_method_error_32601_witness :
    lineOutputs initialServerState (LineInput.json c3RequestLine) =
      [OutMessage.error (Json.num 5) (-32601) "Method not found: frobnicate"] ∧
    ∃ pre post, "Method not found: " ++ "frobnicate" = pre ++ "frobnicate" ++ post :=
  unknown_method_error_32601 c3RequestLine
    { jsonrpc := "2.0", id := Json.num 5, method := "frobnicate", params := none }
    rfl (by decide) (by decide) (by decide) (by decide) (by decide)

/-- C6: a Request for `initialize` or `tools/call` whose `params` field is
absent gets exactly one error response, code `-32602`, correlated to the
request's id, whose message names the method and states
"missing params field". -/
theorem missing_params_error_32602 (v : Json) (r : GenericRequest)
    (hdec : decodeGenericRequest v = some r)
    (hm : r.method = "initialize" ∨ r.method = "tools/call")
    (hp : r.params = none) :
    lineOutputs initialServerState (LineInput.json v) =
      [OutMessage.error r.id (-32602)
        ("Invalid params for " ++ r.method ++ ": missing params field")] := by
  have hid := decodeGenericRequest_id hdec
  cases hm with
  | inl h =>
    simp [lineOutputs, processLine, hid, hdec, handle_request, h, hp,
          invalid_params_error, create_error_response, errOut]
  | inr h =>
    simp [lineOutputs, processLine, hid, hdec, handle_request, h, hp,
          invalid_params_error, create_error_response, errOut]

/-- A concrete `initialize` request with no `params` key. -/
def c6Line : Json :=
  Json.obj [("jsonrpc", Json.str "2.0"), ("id", Json.num 9), ("method", Json.str "initialize")]

/-- C6 witness: the theorem applied to an `initialize` request without
params. -/
theorem missing_params_error_32602_witness :
    lineOutputs initialServerState (LineInput.json c6Line) =
      [OutMessage.error (Json.num 9) (-32602)
        "Invalid params for initialize: missing params field"] :=
  missing_params_error_32602 c6Line
    { jsonrpc := "2.0", id := Json.num 9, method := "initialize", params := none }
    rfl (Or.inl rfl) rfl

/-- A parseable request line whose own `id` field is JSON `null`. -/
def c7Line : Json :=
  Json.obj [("jsonrpc", Json.str "2.0"), ("id", Json.null), ("method", Json.str "frobnicate")]

/-- C7 counterexample: the claim's second half says `id = null` occurs
*only* when the line is unparseable JSON.  But a perfectly parseable
request whose `id` field is itself `null` is answered with `id = null`
and code `-32601` — a null-id output line that is not the parse-error
case. -/
theorem null_id_only_when_unparseable_counterexample :
    lineOutputs initialServerState (LineInput.json c7Line) =
      [OutMessage.error Json.null (-32601) "Method not found: frobnicate"] ∧
    ∀ m ∈ lineOutputs initialServerState (LineInput.json c7Line),
      m.msgId = Json.null ∧ m.code ≠ some (-32700) := by
  refine ⟨rfl, ?_⟩
  intro m hm
  rw [show lineOutputs initialServerState (LineInput.json c7Line) =
      [OutMessage.error Json.null (-32601) "Method not found: frobnicate"] from rfl] at hm
  rw [List.mem_singleton] at hm
  subst hm
  exact ⟨rfl, by decide⟩

/-- C7 (amended): an unparseable non-empty line is answered with exactly
one error response with `id = null` and code `-32700`; and a response
with `id = null` arises only from an unparseable line or from a message
whose own `id` field is the JSON value `null`. -/
theorem parse_failure_null_id_32700 :
    lineOutputs initialServerState LineInput.invalidJson =
      [OutMessage.error Json.null (-32700) "Parse error: Invalid JSON received"] ∧
    ∀ (v : Json) (m : OutMessage),
      m ∈ lineOutputs initialServerState (LineInput.json v) →
      m.msgId = Json.null → v.get "id" = some Json.null := by
  refine ⟨rfl, ?_⟩
  intro v m hm hnull
  obtain ⟨i, hi, hmi⟩ := mem_lineOutputs_id hm
  rw [hmi] at hnull
  subst hnull
  exact hi

/-- C7 witness: the amended theorem's second half applied to the concrete
null-id request line. -/
theorem parse_failure_null_id_32700_witness :
    OutMessage.error Json.null (-32601) "Method not found: frobnicate" ∈
      lineOutputs initialServerState (LineInput.json c7Line) ∧
    c7Line.get "id" = some Json.null := by
  have hmem : OutMessage.error Json.null (-32601) "Method not found: frobnicate" ∈
      lineOutputs initialServerState (LineInput.json c7Line) := by
    rw [show lineOutputs initialServerState (LineInput.json c7Line) =
        [OutMessage.error Json.null (-32601) "Method not found: frobnicate"] from rfl]
    exact List.mem_singleton_self _
  exact ⟨hmem, parse_failure_null_id_32700.2 c7Line _ hmem rfl⟩

/-- C8: an `initialize` Request with validly decoded params whose
`protocolVersion` differs from the server's constant still gets a normal
success response, and the result advertises the server's own version. -/
theorem initialize_version_mismatch_still_success (v : Json) (r : GenericRequest)
    (p : Json) (ip : InitializeRequestParams)
    (hdec : decodeGenericRequest v = some r)
    (hm : r.method = "initialize")
    (hp : r.params = some p)
    (hip : decodeInitializeRequestParams p = some ip)
    (_hver : ip.protocol_version ≠ SUPPORTED_PROTOCOL_VERSION) :
    ∃ res : Json,
      lineOutputs initialServerState (LineInput.json v) = [OutMessage.success r.id res] ∧
      res.get "protocolVersion" = some (Json.str SUPPORTED_PROTOCOL_VERSION) := by
  have hid := decodeGenericRequest_id hdec
  refine ⟨InitializeResult.toJson
    { protocol_version := SUPPORTED_PROTOCOL_VERSION,
      capabilities := initialServerState.server_capabilities,
      server_info := initialServerState.server_info,
      instructions := none }, ?_, ?_⟩
  · simp [lineOutputs, processLine, hid, hdec, handle_request, hm, hp, hip,
          handle_initialize]
  · rfl

/-- A concrete `initialize` request asking for protocol version "1.0". -/
def c8Line : Json :=
  Json.obj [("jsonrpc", Json.str "2.0"), ("id", Json.num 3),
            ("method", Json.str "initialize"),
            ("params", Json.obj [("protocolVersion", Json.str "1.0"),
                                 ("capabilities", Json.obj []),
                                 ("clientInfo", Json.obj [("name", Json.str "client"),
                                                          ("version", Json.str "0.0")])])]

/-- C8 witness: the theorem applied to a concrete version-mismatched
`initialize` request. -/
theorem initialize_version_mismatch_still_success_witness :
    ("1.0" : String) ≠ SUPPORTED_PROTOCOL_VERSION ∧
    ∃ res : Json,
      lineOutputs initialServerState (LineInput.json c8Line) =
        [OutMessage.success (Json.num 3) res] ∧
      res.get "protocolVersion" = some (Json.str SUPPORTED_PROTOCOL_VERSION) :=
  ⟨by decide,
   initialize_version_mismatch_still_success c8Line
     { jsonrpc := "2.0", id := Json.num 3, method := "initialize",
       params := some (Json.obj [("protocolVersion", Json.str "1.0"),
                                 ("capabilities", Json.obj []),
                                 ("clientInfo", Json.obj [("name", Json.str "client"),
                                                          ("version", Json.str "0.0")])]) }
     (Json.obj [("protocolVersion", Json.str "1.0"),
                ("capabilities", Json.obj []),
                ("clientInfo", Json.obj [("name", Json.str "client"),
                                         ("version", Json.str "0.0")])])
     { protocol_version := "1.0", capabilities := {},
       client_info := { name := "client", version := "0.0" } }
     rfl rfl rfl rfl (by decide)⟩

/-- C9: no input line ever produces an error response with code `-32603`:
the list and tool handlers are total, so the dispatcher's internal-error
branches are unreachable. -/
theorem no_internal_error_32603 (l : LineInput) (m : OutMessage)
    (hm : m ∈ lineOutputs initialServerState l) :
    m.code ≠ some (-32603) := by
  cases l with
  | emptyLine => simp [lineOutputs, processLine] at hm
  | invalidJson =>
    simp only [lineOutputs, processLine] at hm
    rw [List.mem_singleton] at hm
    subst hm
    decide
  | json v =>
    cases hid : v.get "id" with
    | none =>
      cases hmeth : v.get "method" with
      | none => simp [lineOutputs, processLine, hid, hmeth] at hm
      | some mv =>
        cases hn : decodeGenericNotification v with
        | none => simp [lineOutputs, processLine, hid, hmeth, hn] at hm
        | some n =>
          simp [lineOutputs, processLine, hid, hmeth, hn, handle_notification_eq_nil] at hm
    | some i =>
      cases hd : decodeGenericRequest v with
      | none =>
        simp only [lineOutputs, processLine, hid, hd] at hm
        rw [List.mem_singleton] at hm
        subst hm
        simp [errOut, parse_error, create_error_response, OutMessage.code]
      | some req =>
        simp only [lineOutputs, processLine, hid, hd] at hm
        rw [List.mem_singleton] at hm
        subst hm
        exact handle_request_code_ne req initialServerState

/-- C9 witness: the theorem applied to the concrete parse-error output of
an unparseable line. -/
theorem no_internal_error_32603_witness :
    OutMessage.error Json.null (-32700) "Parse error: Invalid JSON received" ∈
      lineOutputs initialServerState LineInput.invalidJson ∧
    (OutMessage.error Json.null (-32700) "Parse error: Invalid JSON received").code ≠
      some (-32603) := by
  have hmem : OutMessage.error Json.null (-32700) "Parse error: Invalid JSON received" ∈
      lineOutputs initialServerState LineInput.invalidJson := by
    rw [show lineOutputs initialServerState LineInput.invalidJson =
        [OutMessage.error Json.null (-32700) "Parse error: Invalid JSON received"] from rfl]
    exact List.mem_singleton_self _
  exact ⟨hmem, no_internal_error_32603 LineInput.invalidJson _ hmem⟩

/-- The dispatcher never reads the decoded request's `jsonrpc` field:
two requests differing only there are handled identically. -/
theorem handle_request_ignores_jsonrpc (j₁ j₂ : String) (i : Json) (m : String)
    (p : Option Json) (st : ServerState) :
    handle_request { jsonrpc := j₁, id := i, method := m, params := p } st =
      handle_request { jsonrpc := j₂, id := i, method := m, params := p } st := rfl

/-- A missing or non-string `jsonrpc` field makes the `GenericRequest`
decode fail. -/
theorem decode_none_of_bad_jsonrpc (v : Json)
    (h : v.get "jsonrpc" = none ∨ ∀ s, v.get "jsonrpc" ≠ some (Json.str s)) :
    decodeGenericRequest v = none := by
  cases hv : v.get "jsonrpc" with
  | none => simp [decodeGenericRequest, hv]
  | some j =>
    cases h with
    | inl h0 => rw [h0] at hv; cases hv
    | inr hs =>
      cases j with
      | str s => exact absurd hv (hs s)
      | null => simp [decodeGenericRequest, hv]
      | bool b => simp [decodeGenericRequest, hv]
      | num n => simp [decodeGenericRequest, hv]
      | arr es => simp [decodeGenericRequest, hv]
      | obj fs => simp [decodeGenericRequest, hv]

/-- C10: decoding a Request requires a `jsonrpc` field that is a string,
but never compares its value to "2.0".  (a) With an `id` key and a
missing or non-string `jsonrpc`, the decode fails and the line is
answered with an error carrying the recovered `id`.  (b) Two lines that
differ only in the string value of `jsonrpc` are classified and
dispatched identically. -/
theorem jsonrpc_presence_required_value_ignored :
    (∀ (v i : Json), v.get "id" = some i →
      (v.get "jsonrpc" = none ∨ ∀ s, v.get "jsonrpc" ≠ some (Json.str s)) →
      lineOutputs initialServerState (LineInput.json v) =
        [OutMessage.error i (-32700) ("Parse error: " ++ serdeDecodeDetail)]) ∧
    (∀ (s₁ s₂ : String) (kvs : List (String × Json)),
      lineOutputs initialServerState
          (LineInput.json (Json.obj (("jsonrpc", Json.str s₁) :: kvs))) =
        lineOutputs initialServerState
          (LineInput.json (Json.obj (("jsonrpc", Json.str s₂) :: kvs)))) := by
  constructor
  · intro v i hid hj
    simp [lineOutputs, processLine, hid, decode_none_of_bad_jsonrpc v hj, errOut,
          parse_error, create_error_response]
  · intro s₁ s₂ kvs
    cases hid : lookupField kvs "id" with
    | some i =>
      cases hm : lookupField kvs "method" with
      | some mv =>
        cases mv with
        | str mm =>
          simp only [lineOutputs, processLine, Json.get, lookupField,
                     decodeGenericRequest, hid, hm, reduceIte]
          exact congrArg (fun x => [x]) (handle_request_ignores_jsonrpc s₁ s₂ i mm _ _)
        | null =>
          simp [lineOutputs, processLine, Json.get, lookupField,
                decodeGenericRequest, hid, hm]
        | bool b =>
          simp [lineOutputs, processLine, Json.get, lookupField,
                decodeGenericRequest, hid, hm]
        | num n =>
          simp [lineOutputs, processLine, Json.get, lookupField,
                decodeGenericRequest, hid, hm]
        | arr es =>
          simp [lineOutputs, processLine, Json.get, lookupField,
                decodeGenericRequest, hid, hm]
        | obj fs =>
          simp [lineOutputs, processLine, Json.get, lookupField,
                decodeGenericRequest, hid, hm]
      | none =>
        simp [lineOutputs, processLine, Json.get, lookupField,
              decodeGenericRequest, hid, hm]
    | none =>
      cases hm : lookupField kvs "method" with
      | some mv =>
        cases mv with
        | str mm =>
          simp [lineOutputs, processLine, Json.get, lookupField,
                decodeGenericNotification, hid, hm, handle_notification_eq_nil]
        | null =>
          simp [lineOutputs, processLine, Json.get, lookupField,
                decodeGenericNotification, hid, hm]
        | bool b =>
          simp [lineOutputs, processLine, Json.get, lookupField,
                decodeGenericNotification, hid, hm]
        | num n =>
          simp [lineOutputs, processLine, Json.get, lookupField,
                decodeGenericNotification, hid, hm]
        | arr es =>
          simp [lineOutputs, processLine, Json.get, lookupField,
                decodeGenericNotification, hid, hm]
        | obj fs =>
          simp [lineOutputs, processLine, Json.get, lookupField,
                decodeGenericNotification, hid, hm]
      | none =>
        simp [lineOutputs, processLine, Json.get, lookupField, hid, hm]

/-- A request line whose `jsonrpc` field is a number, not a string. -/
def c10Line : Json :=
  Json.obj [("jsonrpc", Json.num 2), ("id", Json.num 4), ("method", Json.str "tools/list")]

/-- The non-jsonrpc part of a request line, shared by the two variants in
the C10 witness. -/
def c10Rest : List (String × Json) :=
  [("id", Json.num 4), ("method", Json.str "tools/list")]

/-- C10 witness: part (a) applied to a line with a numeric `jsonrpc`, and
part (b) applied to two lines whose `jsonrpc` strings are "1.0" and
"2.0". -/
theorem jsonrpc_presence_required_value_ignored_witness :
    (c10Line.get "id" = some (Json.num 4) ∧
     lineOutputs initialServerState (LineInput.json c10Line) =
       [OutMessage.error (Json.num 4) (-32700) ("Parse error: " ++ serdeDecodeDetail)]) ∧
    lineOutputs initialServerState
        (LineInput.json (Json.obj (("jsonrpc", Json.str "1.0") :: c10Rest))) =
      lineOutputs initialServerState
        (LineInput.json (Json.obj (("jsonrpc", Json.str "2.0") :: c10Rest))) :=
  ⟨⟨rfl,
    jsonrpc_presence_required_value_ignored.1 c10Line (Json.num 4) rfl
      (Or.inr (fun s h => by simp [c10Line, Json.get, lookupField] at h))⟩,
   jsonrpc_presence_required_value_ignored.2 "1.0" "2.0" c10Rest⟩
